import Mathlib

/-!
Shallow embedding of `aas_chair_selection.py`.

The roster is a pandas DataFrame restricted to the six columns the query
reads.  A cell is `Option String`: `none` models pandas `NaN` (missing
value), which is what index-aligned DataFrame arithmetic produces for a
row present in only one operand.  A DataFrame is a list of
(integer index, row) pairs; `read_data` gives indices `position + 2`.

Note on the free name `f`: the body of `select_chair` (source lines
73-79) builds all of its boolean masks from a name `f` that is bound
nowhere in the module, so a real call raises `NameError` before any
filtering (claim C1).  `select_chair_with` takes the frame the masks are
read from as an explicit first argument, so that the filtering stages
can be analysed with the intended binding `f := df`; the top-level
`select_chair` resolves `f` among the (empty) module globals, faithfully
reproducing the `NameError`.
-/

/-- One roster row: the six columns `select_chair` reads. -/
structure Row where
  area_of_expertise_1 : Option String
  area_of_expertise_2 : Option String
  area_of_expertise_3 : Option String
  session_date : Option String
  session_start : Option String
  session_end : Option String
  deriving Repr, DecidableEq

/-- A DataFrame over the six columns: ordered rows labelled by an integer index. -/
abbrev DataFrame := List (Nat × Row)

/-- Comparison of a cell against a query string, as pandas `series == value`:
`NaN == value` is `False`. -/
def cellEq : Option String → String → Bool
  | some s, v => s == v
  | none, _ => false

/-- pandas elementwise `+` on two cells of an object column: missing on either
side gives `NaN`, two strings concatenate. -/
def cellAdd : Option String → Option String → Option String
  | some s, some t => some (s ++ t)
  | _, _ => none

/-- The all-`NaN` row produced by aligning a row against a frame without it. -/
def rowNaN : Row :=
  ⟨none, none, none, none, none, none⟩

/-- Elementwise `+` of two aligned rows. -/
def rowAdd (r1 r2 : Row) : Row :=
  ⟨cellAdd r1.area_of_expertise_1 r2.area_of_expertise_1,
   cellAdd r1.area_of_expertise_2 r2.area_of_expertise_2,
   cellAdd r1.area_of_expertise_3 r2.area_of_expertise_3,
   cellAdd r1.session_date r2.session_date,
   cellAdd r1.session_start r2.session_start,
   cellAdd r1.session_end r2.session_end⟩

/-- `.loc`-style lookup of the (first) row labelled `i`. -/
def lookupRow (d : DataFrame) (i : Nat) : Option Row :=
  (d.find? (fun p => p.1 == i)).map (fun p => p.2)

/-- Insert into a strictly increasing list of indices, dropping duplicates. -/
def insertSorted (x : Nat) : List Nat → List Nat
  | [] => [x]
  | y :: ys =>
    if x < y then x :: y :: ys
    else if x = y then y :: ys
    else y :: insertSorted x ys

/-- Sorted deduplicated index union, as a pandas `Index.union`. -/
def dedupSort (l : List Nat) : List Nat :=
  l.foldr insertSorted []

/-- The cell values the aligned sum of two frames stores at index `i`:
elementwise addition when both frames have the row, all-`NaN` otherwise. -/
def combineAt (d1 d2 : DataFrame) (i : Nat) : Row :=
  match lookupRow d1 i, lookupRow d2 i with
  | some r1, some r2 => rowAdd r1 r2
  | _, _ => rowNaN

/-- pandas `df1 + df2`: align both frames on the sorted union of their
indices; a row present in only one operand becomes all-`NaN`. -/
def addDF (d1 d2 : DataFrame) : DataFrame :=
  (dedupSort (d1.map Prod.fst ++ d2.map Prod.fst)).map (fun i => (i, combineAt d1 d2 i))

/-- Value of the boolean mask `p` over frame `f` at index `i` (a mask built
from a column of `f` and aligned by index). -/
def maskPred (f : DataFrame) (p : Row → Bool) (i : Nat) : Bool :=
  match lookupRow f i with
  | some r => p r
  | none => false

/-- `sub[mask]` where `mask` is a boolean series computed from frame `f`:
keep the rows of `sub` whose index satisfies the mask. -/
def maskFilter (f : DataFrame) (p : Row → Bool) (sub : DataFrame) : DataFrame :=
  sub.filter (fun e => maskPred f p e.1)

/-- Mask `column == value` for a given column selector. -/
def colMask (col : Row → Option String) (v : String) (r : Row) : Bool :=
  cellEq (col r) v

/-- An expertise argument: a single string, or a list of strings
(`np.size` distinguishes the two shapes). -/
inductive AreaArg where
  | one : String → AreaArg
  | many : List String → AreaArg
  deriving Repr, DecidableEq

/-- Primary-expertise stage, source lines 82-87.  Multi-value case: start
from `df[mask(area1[0])]`, then `df_selected += df_selected[mask(a)]` for the
remaining values — the accumulator itself is re-filtered and the fragments
are combined with DataFrame addition.  A list argument of size one is
compared against the column as a length-1 sequence, which pandas only
accepts when the frame has exactly one row; an empty list makes `area1[0]`
fail. -/
def stage_area1 (f df : DataFrame) : AreaArg → Except String DataFrame
  | .one a => .ok (maskFilter f (colMask Row.area_of_expertise_1 a) df)
  | .many [] => .error "IndexError: list index out of range"
  | .many [a] =>
    if df.length = 1 then .ok (maskFilter f (colMask Row.area_of_expertise_1 a) df)
    else .error "ValueError: Lengths must match to compare"
  | .many (a0 :: a1 :: rest) =>
    .ok ((a1 :: rest).foldl
      (fun acc a => addDF acc (maskFilter f (colMask Row.area_of_expertise_1 a) acc))
      (maskFilter f (colMask Row.area_of_expertise_1 a0) df))

/-- Secondary-expertise stage, source lines 89-98.  Multi-value case
accumulates `df_selected_new += df_selected[mask(a)]`: every fragment is cut
from the stage-1 result `df_selected`. -/
def stage_area2 (f : DataFrame) (df_selected : DataFrame) :
    Option AreaArg → Except String DataFrame
  | none => .ok df_selected
  | some (.one a) => .ok (maskFilter f (colMask Row.area_of_expertise_2 a) df_selected)
  | some (.many []) => .error "IndexError: list index out of range"
  | some (.many [a]) =>
    if df_selected.length = 1 then
      .ok (maskFilter f (colMask Row.area_of_expertise_2 a) df_selected)
    else .error "ValueError: Lengths must match to compare"
  | some (.many (a0 :: a1 :: rest)) =>
    .ok ((a1 :: rest).foldl
      (fun acc a => addDF acc (maskFilter f (colMask Row.area_of_expertise_2 a) df_selected))
      (maskFilter f (colMask Row.area_of_expertise_2 a0) df_selected))

/-- The values the tertiary multi-value loop (source line 106) iterates over:
the source slices `area2[1:]`, not `area3[1:]`.  Slicing `None` fails;
slicing a plain string drops its first character and iterating it yields
one-character strings; slicing a list drops its head. -/
def pyTail : Option AreaArg → Except String (List String)
  | none => .error "TypeError: NoneType is not subscriptable"
  | some (.one s) => .ok (((s.drop 1).toList).map (fun c => String.mk [c]))
  | some (.many l) => .ok (l.drop 1)

/-- Tertiary-expertise stage, source lines 100-109.  Multi-value case starts
from `df_selected_new[mask(area3[0])]` and then loops over `area2[1:]`
(source line 106), accumulating with DataFrame addition. -/
def stage_area3 (f : DataFrame) (df_selected_new : DataFrame) (area2 : Option AreaArg) :
    Option AreaArg → Except String DataFrame
  | none => .ok df_selected_new
  | some (.one a) => .ok (maskFilter f (colMask Row.area_of_expertise_3 a) df_selected_new)
  | some (.many []) => .error "IndexError: list index out of range"
  | some (.many [a]) =>
    if df_selected_new.length = 1 then
      .ok (maskFilter f (colMask Row.area_of_expertise_3 a) df_selected_new)
    else .error "ValueError: Lengths must match to compare"
  | some (.many (a0 :: _ :: _)) => do
    let tl ← pyTail area2
    .ok (tl.foldl
      (fun acc a => addDF acc (maskFilter f (colMask Row.area_of_expertise_3 a) df_selected_new))
      (maskFilter f (colMask Row.area_of_expertise_3 a0) df_selected_new))

/-- Mask of `df_off_date` (source line 113): `session_date != date`
(`NaN != date` is `True`). -/
def offMask (date : String) (r : Row) : Bool :=
  !(cellEq r.session_date date)

/-- Mask of `df_on_date` (source lines 114-116): same date but start and
end both differ. -/
def onMask (date start_time end_time : String) (r : Row) : Bool :=
  cellEq r.session_date date
    && !(cellEq r.session_start start_time)
    && !(cellEq r.session_end end_time)

/-- Schedule-conflict stage, source lines 113-118:
`df_selected_all = df_off_date + df_on_date`. -/
def stage_schedule (f : DataFrame) (date start_time end_time : String)
    (d : DataFrame) : DataFrame :=
  addDF (maskFilter f (offMask date) d) (maskFilter f (onMask date start_time end_time) d)

/-- The frame surviving all four filtering stages (source lines 82-118). -/
def survivors (f df : DataFrame) (area1 : AreaArg) (date start_time end_time : String)
    (area2 area3 : Option AreaArg) : Except String DataFrame := do
  let df_selected ← stage_area1 f df area1
  let df_selected_new ← stage_area2 f df_selected area2
  let df_selected_all ← stage_area3 f df_selected_new area2 area3
  .ok (stage_schedule f date start_time end_time df_selected_all)

/-- What a call to `select_chair` evaluates to: a frame (`mode == "all"`),
a single labelled row (`mode == "random"`), or Python's implicit `None`
for any other mode string. -/
inductive Output where
  | frame : DataFrame → Output
  | row : Nat → Row → Output
  | pynone : Output
  deriving Repr, DecidableEq

/-- The body of `select_chair` with the mask frame `f` explicit.  `rng`
models the draw of `np.random.choice`, which picks the entry at a
position uniform over the index array; `np.random.choice` of an empty
array raises `ValueError`. -/
def select_chair_with (f df : DataFrame) (area1 : AreaArg)
    (date start_time end_time : String) (area2 area3 : Option AreaArg)
    (mode : String) (rng : Nat) : Except String Output :=
  match survivors f df area1 date start_time end_time area2 area3 with
  | .error err => .error err
  | .ok df_selected_all =>
    if mode == "all" then
      .ok (.frame df_selected_all)
    else if mode == "random" then
      let idxs := df_selected_all.map Prod.fst
      if idxs.isEmpty then
        .error "ValueError: a must be non-empty"
      else
        let chosen := idxs.getD (rng % idxs.length) 0
        match lookupRow df_selected_all chosen with
        | some r => .ok (.row chosen r)
        | none => .error "KeyError"
    else
      .ok .pynone

/-- The module's global bindings: `f` is defined nowhere. -/
def moduleGlobals : List (String × DataFrame) := []

/-- `select_chair` as called: line 73 resolves the free name `f` among the
module globals before anything else runs. -/
def select_chair (df : DataFrame) (area1 : AreaArg)
    (date start_time end_time : String) (area2 area3 : Option AreaArg)
    (mode : String) (rng : Nat) : Except String Output :=
  match (moduleGlobals.find? (fun p => p.1 == "f")).map (fun p => p.2) with
  | none => .error "NameError: name f is not defined"
  | some f => select_chair_with f df area1 date start_time end_time area2 area3 mode rng

/-- `read_data`, source lines 128-131: `pd.read_csv` yields the parsed rows
with positional indices (or a propagated error), and `df.index += 2.0`
shifts every index by the constant 2. -/
def read_data (parsed : Except String (List Row)) : Except String DataFrame :=
  parsed.map (fun rows => rows.enum.map (fun p => (p.1 + 2, p.2)))

/-- Single-value expertise filter as the spec states it (spec section 8):
the subset of rows whose given column equals the value. -/
def spec_filter_one (col : Row → Option String) (v : String) (df : DataFrame) : DataFrame :=
  df.filter (fun p => cellEq (col p.2) v)

/-- Row-set union of two frames as the spec states it (spec section 8). -/
def spec_union (d1 d2 : DataFrame) : DataFrame :=
  d1 ++ d2.filter (fun p => !(d1.contains p))

/-- P1 of the spec scenario: "stars", talking on 2020-01-01, 10:00-11:00. -/
def rowP1 : Row :=
  ⟨some "stars", none, none, some "2020-01-01", some "10:00", some "11:00"⟩

/-- P2 of the spec scenario: "stars", talking on 2020-02-02, 09:00-10:00. -/
def rowP2 : Row :=
  ⟨some "stars", none, none, some "2020-02-02", some "09:00", some "10:00"⟩

/-- The spec-scenario roster, with the indices `read_data` would give it. -/
def rosterP : DataFrame := [(2, rowP1), (3, rowP2)]

/-- A row whose primary expertise is "b". -/
def rowB : Row :=
  ⟨some "b", none, none, some "2020-01-01", some "10:00", some "11:00"⟩

/-- One-row roster for the multi-value-filter counterexample. -/
def rosterB : DataFrame := [(0, rowB)]

/-- A row on the excluded date whose start matches the excluded start but
whose end does not. -/
def rowX : Row :=
  ⟨some "stars", none, none, some "2020-01-01", some "10:00", some "99:99"⟩

/-- One-row roster for the schedule-exclusion counterexample. -/
def rosterX : DataFrame := [(0, rowX)]

/-! ### Helper lemmas about the index machinery -/

theorem mem_insertSorted (x y : Nat) (l : List Nat) :
    x ∈ insertSorted y l ↔ x = y ∨ x ∈ l := by
  induction l with
  | nil => simp [insertSorted]
  | cons z zs ih =>
    by_cases h1 : y < z
    · simp [insertSorted, h1]
    · by_cases h2 : y = z
      · subst h2
        simp [insertSorted, h1]
      · simp only [insertSorted, if_neg h1, if_neg h2, List.mem_cons, ih]
        tauto

theorem pairwise_insertSorted (x : Nat) (l : List Nat)
    (h : l.Pairwise (· < ·)) : (insertSorted x l).Pairwise (· < ·) := by
  induction l with
  | nil => simp [insertSorted]
  | cons z zs ih =>
    rcases List.pairwise_cons.mp h with ⟨hz, hzs⟩
    by_cases h1 : x < z
    · simp only [insertSorted, if_pos h1]
      refine List.pairwise_cons.mpr ⟨?_, h⟩
      intro b hb
      rcases List.mem_cons.mp hb with rfl | hb
      · exact h1
      · exact h1.trans (hz b hb)
    · by_cases h2 : x = z
      · simpa [insertSorted, h1, h2] using h
      · have h3 : z < x := by omega
        simp only [insertSorted, if_neg h1, if_neg h2]
        refine List.pairwise_cons.mpr ⟨?_, ih hzs⟩
        intro b hb
        rcases (mem_insertSorted b x zs).mp hb with rfl | hb
        · exact h3
        · exact hz b hb

theorem mem_dedupSort (x : Nat) (l : List Nat) : x ∈ dedupSort l ↔ x ∈ l := by
  induction l with
  | nil => simp [dedupSort]
  | cons y ys ih =>
    show x ∈ insertSorted y (dedupSort ys) ↔ _
    rw [mem_insertSorted, ih]
    simp

theorem pairwise_dedupSort (l : List Nat) : (dedupSort l).Pairwise (· < ·) := by
  induction l with
  | nil => simp [dedupSort]
  | cons y ys ih => exact pairwise_insertSorted y _ ih

theorem sorted_lt_ext (l1 l2 : List Nat) (h1 : l1.Pairwise (· < ·))
    (h2 : l2.Pairwise (· < ·)) (hmem : ∀ x, x ∈ l1 ↔ x ∈ l2) : l1 = l2 := by
  induction l1 generalizing l2 with
  | nil =>
    cases l2 with
    | nil => rfl
    | cons b t => exact absurd ((hmem b).mpr (List.mem_cons_self _ _)) (by simp)
  | cons a t1 ih =>
    cases l2 with
    | nil => exact absurd ((hmem a).mp (List.mem_cons_self _ _)) (by simp)
    | cons b t2 =>
      rcases List.pairwise_cons.mp h1 with ⟨ha, ht1⟩
      rcases List.pairwise_cons.mp h2 with ⟨hb, ht2⟩
      have hab : a = b := by
        rcases List.mem_cons.mp ((hmem a).mp (List.mem_cons_self _ _)) with h | h
        · exact h
        · rcases List.mem_cons.mp ((hmem b).mpr (List.mem_cons_self _ _)) with h' | h'
          · exact h'.symm
          · have := ha b h'
            have := hb a h
            omega
      subst hab
      have htail : ∀ x, x ∈ t1 ↔ x ∈ t2 := by
        intro x
        constructor
        · intro hx
          rcases List.mem_cons.mp ((hmem x).mp (List.mem_cons_of_mem _ hx)) with rfl | h
          · exact absurd (ha x hx) (by omega)
          · exact h
        · intro hx
          rcases List.mem_cons.mp ((hmem x).mpr (List.mem_cons_of_mem _ hx)) with rfl | h
          · exact absurd (hb x hx) (by omega)
          · exact h
      rw [ih t2 ht1 ht2 htail]

theorem dedupSort_congr (l1 l2 : List Nat) (h : ∀ x, x ∈ l1 ↔ x ∈ l2) :
    dedupSort l1 = dedupSort l2 :=
  sorted_lt_ext _ _ (pairwise_dedupSort l1) (pairwise_dedupSort l2)
    (by intro x; rw [mem_dedupSort, mem_dedupSort]; exact h x)

theorem lookupRow_cons (e : Nat × Row) (t : DataFrame) (i : Nat) :
    lookupRow (e :: t) i = if e.1 = i then some e.2 else lookupRow t i := by
  unfold lookupRow
  by_cases he : e.1 = i
  · rw [List.find?_cons_of_pos _ (by simpa using he), if_pos he]
    rfl
  · rw [List.find?_cons_of_neg _ (by simpa using he), if_neg he]

theorem lookupRow_eq_none_iff (d : DataFrame) (i : Nat) :
    lookupRow d i = none ↔ i ∉ d.map Prod.fst := by
  induction d with
  | nil => simp [lookupRow]
  | cons e t ih =>
    rw [lookupRow_cons]
    by_cases he : e.1 = i
    · rw [if_pos he]
      simp [he]
    · rw [if_neg he, ih]
      simp [Ne.symm he]

theorem lookupRow_mem (d : DataFrame) (i : Nat) (r : Row)
    (h : lookupRow d i = some r) : (i, r) ∈ d := by
  induction d with
  | nil => simp [lookupRow] at h
  | cons e t ih =>
    cases e with
    | mk a b =>
      rw [lookupRow_cons] at h
      by_cases he : ((a, b) : Nat × Row).1 = i
      · rw [if_pos he] at h
        injection h with h2
        have ha : a = i := by simpa using he
        subst ha
        subst h2
        exact List.mem_cons_self _ _
      · rw [if_neg he] at h
        exact List.mem_cons_of_mem _ (ih h)

theorem lookupRow_of_mem_nodup (d : DataFrame) (i : Nat) (r : Row)
    (hnd : (d.map Prod.fst).Nodup) (h : (i, r) ∈ d) : lookupRow d i = some r := by
  induction d with
  | nil => simp at h
  | cons e t ih =>
    rw [List.map_cons, List.nodup_cons] at hnd
    rw [lookupRow_cons]
    rcases List.mem_cons.mp h with rfl | ht
    · simp
    · have hne : e.1 ≠ i := by
        intro heq
        exact hnd.1 (by rw [heq]; exact List.mem_map.mpr ⟨(i, r), ht, rfl⟩)
      rw [if_neg hne]
      exact ih hnd.2 ht

theorem mem_maskFilter (f : DataFrame) (p : Row → Bool) (sub : DataFrame)
    (e : Nat × Row) :
    e ∈ maskFilter f p sub ↔ e ∈ sub ∧ maskPred f p e.1 = true := by
  unfold maskFilter
  exact List.mem_filter

theorem mem_indices_maskFilter (f : DataFrame) (p : Row → Bool) (sub : DataFrame)
    (i : Nat) :
    i ∈ (maskFilter f p sub).map Prod.fst ↔
      i ∈ sub.map Prod.fst ∧ maskPred f p i = true := by
  constructor
  · intro h
    rcases List.mem_map.mp h with ⟨e, he, hfst⟩
    rcases (mem_maskFilter f p sub e).mp he with ⟨hsub, hmask⟩
    subst hfst
    exact ⟨List.mem_map.mpr ⟨e, hsub, rfl⟩, hmask⟩
  · rintro ⟨h, hmask⟩
    rcases List.mem_map.mp h with ⟨e, he, hfst⟩
    subst hfst
    exact List.mem_map.mpr ⟨e, (mem_maskFilter f p sub e).mpr ⟨he, hmask⟩, rfl⟩

theorem indices_tabulate (l : List Nat) (g : Nat → Row) :
    ((l.map (fun j => (j, g j)) : DataFrame).map Prod.fst) = l := by
  induction l with
  | nil => rfl
  | cons j t ih => simp [ih]

theorem lookupRow_tabulate (l : List Nat) (g : Nat → Row) (i : Nat) :
    lookupRow (l.map (fun j => (j, g j))) i =
      if i ∈ l then some (g i) else none := by
  induction l with
  | nil => simp [lookupRow]
  | cons j t ih =>
    rw [List.map_cons, lookupRow_cons]
    by_cases hj : j = i
    · subst hj
      simp
    · have hne : ((j, g j) : Nat × Row).1 ≠ i := by simpa using hj
      rw [if_neg hne, ih]
      by_cases hit : i ∈ t
      · rw [if_pos hit, if_pos (List.mem_cons_of_mem _ hit)]
      · rw [if_neg hit, if_neg ?hni]
        intro hh
        rcases List.mem_cons.mp hh with rfl | hh2
        · exact hj rfl
        · exact hit hh2

theorem filter_tabulate (l : List Nat) (g : Nat → Row) (q : Nat → Bool) :
    ((l.map (fun j => (j, g j)) : DataFrame).filter (fun e => q e.1)) =
      (l.filter q).map (fun j => (j, g j)) := by
  induction l with
  | nil => rfl
  | cons j t ih =>
    by_cases hq : q j
    · simp [List.filter_cons, hq, ih]
    · simp [List.filter_cons, hq, ih]

theorem indices_addDF (d1 d2 : DataFrame) :
    (addDF d1 d2).map Prod.fst = dedupSort (d1.map Prod.fst ++ d2.map Prod.fst) :=
  indices_tabulate _ _

theorem mem_indices_addDF (d1 d2 : DataFrame) (i : Nat) :
    i ∈ (addDF d1 d2).map Prod.fst ↔ i ∈ d1.map Prod.fst ∨ i ∈ d2.map Prod.fst := by
  rw [indices_addDF, mem_dedupSort, List.mem_append]

theorem combineAt_right_none (d1 d2 : DataFrame) (i : Nat)
    (h : lookupRow d2 i = none) : combineAt d1 d2 i = rowNaN := by
  unfold combineAt
  rw [h]
  cases lookupRow d1 i <;> rfl

theorem combineAt_left_none (d1 d2 : DataFrame) (i : Nat)
    (h : lookupRow d1 i = none) : combineAt d1 d2 i = rowNaN := by
  unfold combineAt
  rw [h]

theorem maskPred_of_lookup (f : DataFrame) (p : Row → Bool) (i : Nat) (r : Row)
    (h : lookupRow f i = some r) : maskPred f p i = p r := by
  unfold maskPred
  rw [h]

theorem maskPred_disjoint (f : DataFrame) (p1 p2 : Row → Bool)
    (hdisj : ∀ r, ¬(p1 r = true ∧ p2 r = true)) (i : Nat) :
    ¬(maskPred f p1 i = true ∧ maskPred f p2 i = true) := by
  unfold maskPred
  cases lookupRow f i with
  | none => simp
  | some r => exact hdisj r

theorem offMask_onMask_disjoint (date s e : String) :
    ∀ r, ¬(offMask date r = true ∧ onMask date s e r = true) := by
  intro r ⟨h1, h2⟩
  unfold offMask at h1
  unfold onMask at h2
  rw [Bool.not_eq_true'] at h1
  rw [h1] at h2
  simp at h2

theorem addDF_filter_idem (f : DataFrame) (p1 p2 : Row → Bool) (S : DataFrame)
    (hdisj : ∀ r, ¬(p1 r = true ∧ p2 r = true)) :
    addDF (maskFilter f p1 (addDF (maskFilter f p1 S) (maskFilter f p2 S)))
          (maskFilter f p2 (addDF (maskFilter f p1 S) (maskFilter f p2 S)))
      = addDF (maskFilter f p1 S) (maskFilter f p2 S) := by
  have hq := maskPred_disjoint f p1 p2 hdisj
  set A := maskFilter f p1 S with hA
  set B := maskFilter f p2 S with hB
  set L := dedupSort (A.map Prod.fst ++ B.map Prod.fst) with hL
  set g : Nat → Row := fun j => combineAt A B j with hg
  have hfirst : addDF A B = L.map (fun j => (j, g j)) := rfl
  have hQ : ∀ i ∈ L, maskPred f p1 i = true ∨ maskPred f p2 i = true := by
    intro i hi
    rw [hL, mem_dedupSort, List.mem_append] at hi
    rcases hi with h | h
    · rw [hA] at h
      exact Or.inl ((mem_indices_maskFilter f p1 S i).mp h).2
    · rw [hB] at h
      exact Or.inr ((mem_indices_maskFilter f p2 S i).mp h).2
  have hfilt1 : maskFilter f p1 (addDF A B) =
      (L.filter (fun i => maskPred f p1 i)).map (fun j => (j, g j)) := by
    rw [hfirst]
    unfold maskFilter
    exact filter_tabulate L g (fun i => maskPred f p1 i)
  have hfilt2 : maskFilter f p2 (addDF A B) =
      (L.filter (fun i => maskPred f p2 i)).map (fun j => (j, g j)) := by
    rw [hfirst]
    unfold maskFilter
    exact filter_tabulate L g (fun i => maskPred f p2 i)
  have hstepA : dedupSort ((L.filter (fun i => maskPred f p1 i)) ++
      (L.filter (fun i => maskPred f p2 i))) = L := by
    apply sorted_lt_ext _ _ (pairwise_dedupSort _) (hL ▸ pairwise_dedupSort _)
    intro x
    rw [mem_dedupSort, List.mem_append, List.mem_filter, List.mem_filter]
    constructor
    · rintro (⟨hx, _⟩ | ⟨hx, _⟩) <;> exact hx
    · intro hx
      rcases hQ x hx with h | h
      · exact Or.inl ⟨hx, h⟩
      · exact Or.inr ⟨hx, h⟩
  have hvals : ∀ i ∈ L,
      combineAt ((L.filter (fun i => maskPred f p1 i)).map (fun j => (j, g j)))
                ((L.filter (fun i => maskPred f p2 i)).map (fun j => (j, g j))) i
        = combineAt A B i := by
    intro i hi
    rcases hQ i hi with h1 | h2
    · have h2f : maskPred f p2 i = false := by
        cases hc : maskPred f p2 i
        · rfl
        · exact absurd ⟨h1, hc⟩ (hq i)
      have hBtab : lookupRow ((L.filter (fun i => maskPred f p2 i)).map
          (fun j => (j, g j))) i = none := by
        rw [lookupRow_tabulate, if_neg]
        intro hmem
        have := (List.mem_filter.mp hmem).2
        rw [h2f] at this
        exact Bool.false_ne_true this
      have hBnone : lookupRow B i = none := by
        rw [lookupRow_eq_none_iff]
        intro hmem
        rw [hB] at hmem
        have := ((mem_indices_maskFilter f p2 S i).mp hmem).2
        rw [h2f] at this
        exact Bool.false_ne_true this
      rw [combineAt_right_none _ _ _ hBtab, combineAt_right_none _ _ _ hBnone]
    · have h1f : maskPred f p1 i = false := by
        cases hc : maskPred f p1 i
        · rfl
        · exact absurd ⟨hc, h2⟩ (hq i)
      have hAtab : lookupRow ((L.filter (fun i => maskPred f p1 i)).map
          (fun j => (j, g j))) i = none := by
        rw [lookupRow_tabulate, if_neg]
        intro hmem
        have := (List.mem_filter.mp hmem).2
        rw [h1f] at this
        exact Bool.false_ne_true this
      have hAnone : lookupRow A i = none := by
        rw [lookupRow_eq_none_iff]
        intro hmem
        rw [hA] at hmem
        have := ((mem_indices_maskFilter f p1 S i).mp hmem).2
        rw [h1f] at this
        exact Bool.false_ne_true this
      rw [combineAt_left_none _ _ _ hAtab, combineAt_left_none _ _ _ hAnone]
  calc addDF (maskFilter f p1 (addDF A B)) (maskFilter f p2 (addDF A B))
      = (dedupSort ((L.filter (fun i => maskPred f p1 i)) ++
          (L.filter (fun i => maskPred f p2 i)))).map
          (fun i => (i, combineAt
            ((L.filter (fun i => maskPred f p1 i)).map (fun j => (j, g j)))
            ((L.filter (fun i => maskPred f p2 i)).map (fun j => (j, g j))) i)) := by
        rw [hfilt1, hfilt2]
        unfold addDF
        rw [indices_tabulate, indices_tabulate]
    _ = L.map (fun i => (i, combineAt
            ((L.filter (fun i => maskPred f p1 i)).map (fun j => (j, g j)))
            ((L.filter (fun i => maskPred f p2 i)).map (fun j => (j, g j))) i)) := by
        rw [hstepA]
    _ = L.map (fun i => (i, combineAt A B i)) := by
        apply List.map_congr_left
        intro i hi
        rw [hvals i hi]
    _ = addDF A B := rfl

theorem stage_schedule_idem (f : DataFrame) (date s e : String) (S : DataFrame) :
    stage_schedule f date s e (stage_schedule f date s e S) = stage_schedule f date s e S :=
  addDF_filter_idem f (offMask date) (onMask date s e) S (offMask_onMask_disjoint date s e)

theorem stage_schedule_mem_indices (f : DataFrame) (date s e : String) (S : DataFrame)
    (i : Nat) :
    i ∈ (stage_schedule f date s e S).map Prod.fst ↔
      i ∈ S.map Prod.fst ∧
        (maskPred f (offMask date) i = true ∨ maskPred f (onMask date s e) i = true) := by
  unfold stage_schedule
  rw [mem_indices_addDF, mem_indices_maskFilter, mem_indices_maskFilter]
  tauto

theorem cellEq_eq_true_iff (c : Option String) (v : String) :
    cellEq c v = true ↔ c = some v := by
  cases c <;> simp [cellEq]

/-! ### Claim theorems -/

/-- C1: the claim says the body of `select_chair` reads its six columns from
the parameter `df` and that a call with a well-formed roster does not fail
with an undefined-name error.  In the source the columns are read from the
free global name `f` (lines 73-79), which is bound nowhere, so every call
fails with a `NameError` before any filtering happens: the claim is right
about the intent (the docstring documents `df` as the data source) and the
code is wrong. -/
theorem C1_select_chair_raises_name_error (df : DataFrame) (area1 : AreaArg)
    (date start_time end_time : String) (area2 area3 : Option AreaArg)
    (mode : String) (rng : Nat) :
    select_chair df area1 date start_time end_time area2 area3 mode rng
      = .error "NameError: name f is not defined" := rfl

/-- C2: on the spec-scenario roster (all rows pass the expertise filters)
with excluded window 2020-01-01 08:00-09:00, the schedule-conflict stage
keeps exactly the claimed index set, but the recombination
`df_off_date + df_on_date` is index-aligned DataFrame addition, which turns
every cell of every surviving row into `NaN`: the rows are altered,
contradicting the claim (and the documented intent of returning the
matching entries). -/
theorem C2_schedule_stage_nans_all_cells :
    stage_schedule rosterP "2020-01-01" "08:00" "09:00" rosterP
        = [(2, rowNaN), (3, rowNaN)]
      ∧ rowNaN ≠ rowP1 ∧ rowNaN ≠ rowP2 :=
  ⟨rfl, by decide, by decide⟩

/-- C3: multi-value filtering is not the union of the single-value filters.
On a one-row roster whose only row has primary expertise "b", filtering on
the set consisting of "a" and "b" starts from `df[mask("a")]` (empty) and
then accumulates `df_selected += df_selected[mask("b")]` (still empty), so
the stage returns the empty frame, while the union of the single-value
filters contains the row. -/
theorem C3_multi_value_filter_not_union :
    stage_area1 rosterB rosterB (.many ["a", "b"]) = .ok ([] : DataFrame)
      ∧ spec_union (spec_filter_one Row.area_of_expertise_1 "a" rosterB)
          (spec_filter_one Row.area_of_expertise_1 "b" rosterB) = [(0, rowB)]
      ∧ stage_area1 rosterB rosterB (.many ["a", "b"])
          ≠ .ok (spec_union (spec_filter_one Row.area_of_expertise_1 "a" rosterB)
              (spec_filter_one Row.area_of_expertise_1 "b" rosterB)) := by
  refine ⟨rfl, rfl, ?_⟩
  intro hcon
  rw [show stage_area1 rosterB rosterB (.many ["a", "b"]) = .ok ([] : DataFrame) from rfl,
      show spec_union (spec_filter_one Row.area_of_expertise_1 "a" rosterB)
          (spec_filter_one Row.area_of_expertise_1 "b" rosterB) = [(0, rowB)] from rfl]
      at hcon
  injection hcon with h3
  simp at h3

/-- C5: on the spec-scenario roster, the query ("stars", 2020-01-01,
08:00-09:00, mode "all") keeps both P1 and P2 as the claim says, but the
schedule stage's DataFrame addition replaces every field value of both rows
with `NaN`, so the rows are not returned "with their original field
values". -/
theorem C5_scenario_returns_nan_rows :
    select_chair_with rosterP rosterP (.one "stars") "2020-01-01" "08:00" "09:00"
        none none "all" 0
      = .ok (.frame [(2, rowNaN), (3, rowNaN)])
    ∧ rowNaN ≠ rowP1 :=
  ⟨rfl, by decide⟩

/-- C4 counterexample: `rowX` sits on the excluded date with the excluded
start time but a different end time.  The claim as stated ("excluded iff
start AND end both match") says the row survives, but the stage drops it
(the row is excluded, yet start and end do not both match the excluded
window). -/
theorem C4_claim_counterexample :
    ((0 : Nat) ∉ (stage_schedule rosterX "2020-01-01" "10:00" "11:00" rosterX).map Prod.fst)
      ∧ ¬(cellEq rowX.session_start "10:00" = true ∧ cellEq rowX.session_end "11:00" = true) := by
  constructor
  · rw [show (stage_schedule rosterX "2020-01-01" "10:00" "11:00" rosterX).map Prod.fst
        = [] from rfl]
    simp
  · rintro ⟨_, h2⟩
    rw [show cellEq rowX.session_end "11:00" = false from rfl] at h2
    exact Bool.false_ne_true h2

/-- C4 (amended): the schedule-exclusion stage is idempotent, a row whose
session date differs from the excluded date is never excluded, and a row
whose session date equals the excluded date is excluded iff its start
equals the excluded start OR its end equals the excluded end. -/
theorem C4_schedule_idem_and_exclusion (f : DataFrame) (date s e : String)
    (S : DataFrame) :
    stage_schedule f date s e (stage_schedule f date s e S) = stage_schedule f date s e S
    ∧ (∀ i fr, i ∈ S.map Prod.fst → lookupRow f i = some fr →
        cellEq fr.session_date date = false →
        i ∈ (stage_schedule f date s e S).map Prod.fst)
    ∧ (∀ i fr, i ∈ S.map Prod.fst → lookupRow f i = some fr →
        cellEq fr.session_date date = true →
        (i ∉ (stage_schedule f date s e S).map Prod.fst ↔
          (cellEq fr.session_start s = true ∨ cellEq fr.session_end e = true))) := by
  refine ⟨stage_schedule_idem f date s e S, ?_, ?_⟩
  · intro i fr hi hf hdate
    rw [stage_schedule_mem_indices]
    refine ⟨hi, Or.inl ?_⟩
    rw [maskPred_of_lookup f _ i fr hf]
    unfold offMask
    rw [hdate]
    rfl
  · intro i fr hi hf hdate
    have hoff : maskPred f (offMask date) i = false := by
      rw [maskPred_of_lookup f _ i fr hf]
      unfold offMask
      rw [hdate]
      rfl
    have hon : maskPred f (onMask date s e) i =
        (!(cellEq fr.session_start s) && !(cellEq fr.session_end e)) := by
      rw [maskPred_of_lookup f _ i fr hf]
      unfold onMask
      rw [hdate, Bool.true_and]
    have hmem := stage_schedule_mem_indices f date s e S i
    rw [hoff, hon] at hmem
    constructor
    · intro hnot
      by_contra hcon
      push_neg at hcon
      obtain ⟨h1, h2⟩ := hcon
      have h1f : cellEq fr.session_start s = false := by
        cases hc : cellEq fr.session_start s
        · rfl
        · exact absurd hc h1
      have h2f : cellEq fr.session_end e = false := by
        cases hc : cellEq fr.session_end e
        · rfl
        · exact absurd hc h2
      exact hnot (hmem.mpr ⟨hi, Or.inr (by rw [h1f, h2f]; rfl)⟩)
    · intro hor hmemi
      rcases (hmem.mp hmemi).2 with hfalse | hone
      · exact Bool.false_ne_true hfalse
      · rcases hor with ha | hb
        · rw [ha] at hone
          simp at hone
        · rw [hb] at hone
          simp at hone

/-- Witness for C4's amended theorem on the spec-scenario roster and the
non-matching window 08:00-09:00: the stage is idempotent there, the
different-date row P2 survives, and the matching-date row P1 is excluded
iff its start or end matches (neither does, and it survives). -/
theorem C4_amended_witness :
    stage_schedule rosterP "2020-01-01" "08:00" "09:00"
        (stage_schedule rosterP "2020-01-01" "08:00" "09:00" rosterP)
      = stage_schedule rosterP "2020-01-01" "08:00" "09:00" rosterP
    ∧ (3 : Nat) ∈ (stage_schedule rosterP "2020-01-01" "08:00" "09:00" rosterP).map Prod.fst
    ∧ ((2 : Nat) ∉ (stage_schedule rosterP "2020-01-01" "08:00" "09:00" rosterP).map Prod.fst
        ↔ (cellEq rowP1.session_start "08:00" = true ∨ cellEq rowP1.session_end "09:00" = true)) :=
  ⟨(C4_schedule_idem_and_exclusion rosterP "2020-01-01" "08:00" "09:00" rosterP).1,
   (C4_schedule_idem_and_exclusion rosterP "2020-01-01" "08:00" "09:00" rosterP).2.1 3 rowP2
     (by decide) (by rfl) (by decide),
   (C4_schedule_idem_and_exclusion rosterP "2020-01-01" "08:00" "09:00" rosterP).2.2 2 rowP1
     (by decide) (by rfl) (by decide)⟩

/-- C6: when the filters match zero rows, mode "all" returns the empty
frame without error, and mode "random" is an error surfaced to the caller
(`np.random.choice` of the empty index array). -/
theorem C6_empty_match_all_vs_random (f df : DataFrame) (area1 : AreaArg)
    (date s e : String) (area2 area3 : Option AreaArg) (rng : Nat)
    (h : survivors f df area1 date s e area2 area3 = .ok []) :
    select_chair_with f df area1 date s e area2 area3 "all" rng = .ok (.frame [])
    ∧ select_chair_with f df area1 date s e area2 area3 "random" rng
        = .error "ValueError: a must be non-empty" := by
  constructor
  · unfold select_chair_with
    rw [h]
    rfl
  · unfold select_chair_with
    rw [h]
    rfl

/-- Witness for C6: on the spec-scenario roster, the primary value
"quasars" matches no row. -/
theorem C6_witness :
    select_chair_with rosterP rosterP (.one "quasars") "2020-01-01" "08:00" "09:00"
        none none "all" 0 = .ok (.frame [])
    ∧ select_chair_with rosterP rosterP (.one "quasars") "2020-01-01" "08:00" "09:00"
        none none "random" 0 = .error "ValueError: a must be non-empty" :=
  C6_empty_match_all_vs_random rosterP rosterP (.one "quasars") "2020-01-01" "08:00"
    "09:00" none none 0 (by rfl)

/-- C7: on a roster with distinct indices, the primary-expertise stage with
a single value returns exactly the rows whose `area_of_expertise_1` field
is string-equal to the query value — membership is an exact-match set
equality, with no normalization. -/
theorem C7_primary_filter_exact (df : DataFrame) (a : String) (i : Nat) (r : Row)
    (hnd : (df.map Prod.fst).Nodup) :
    stage_area1 df df (.one a) = .ok (maskFilter df (colMask Row.area_of_expertise_1 a) df)
    ∧ ((i, r) ∈ maskFilter df (colMask Row.area_of_expertise_1 a) df ↔
        ((i, r) ∈ df ∧ r.area_of_expertise_1 = some a)) := by
  refine ⟨rfl, ?_⟩
  rw [mem_maskFilter]
  constructor
  · rintro ⟨hmem, hmask⟩
    refine ⟨hmem, ?_⟩
    rw [maskPred_of_lookup df _ i r (lookupRow_of_mem_nodup df i r hnd hmem)] at hmask
    unfold colMask at hmask
    exact (cellEq_eq_true_iff _ _).mp hmask
  · rintro ⟨hmem, hcol⟩
    refine ⟨hmem, ?_⟩
    rw [maskPred_of_lookup df _ i r (lookupRow_of_mem_nodup df i r hnd hmem)]
    unfold colMask
    exact (cellEq_eq_true_iff _ _).mpr hcol

/-- Witness for C7 on the spec-scenario roster with the value "stars" and
the row P1. -/
theorem C7_witness :
    stage_area1 rosterP rosterP (.one "stars")
        = .ok (maskFilter rosterP (colMask Row.area_of_expertise_1 "stars") rosterP)
    ∧ ((2, rowP1) ∈ maskFilter rosterP (colMask Row.area_of_expertise_1 "stars") rosterP ↔
        ((2, rowP1) ∈ rosterP ∧ rowP1.area_of_expertise_1 = some "stars")) :=
  C7_primary_filter_exact rosterP "stars" 2 rowP1 (by decide)

theorem getD_mem (l : List Nat) (k d : Nat) (h : k < l.length) : l.getD k d ∈ l := by
  induction l generalizing k with
  | nil => simp at h
  | cons a t ih =>
    cases k with
    | zero => simp [List.getD_cons_zero]
    | succ k =>
      rw [List.getD_cons_succ]
      exact List.mem_cons_of_mem _ (ih k (by simpa using h))

theorem select_chair_with_random (f df : DataFrame) (area1 : AreaArg)
    (date s e : String) (area2 area3 : Option AreaArg) (rng : Nat) (dAll : DataFrame)
    (h : survivors f df area1 date s e area2 area3 = .ok dAll) :
    select_chair_with f df area1 date s e area2 area3 "random" rng =
      if (dAll.map Prod.fst).isEmpty then .error "ValueError: a must be non-empty"
      else
        match lookupRow dAll
            ((dAll.map Prod.fst).getD (rng % (dAll.map Prod.fst).length) 0) with
        | some r =>
          .ok (.row ((dAll.map Prod.fst).getD (rng % (dAll.map Prod.fst).length) 0) r)
        | none => .error "KeyError" := by
  unfold select_chair_with
  rw [h]
  rfl

/-- C8: whenever the surviving set is non-empty, a call with mode "random"
returns a single labelled row that is a member of the frame the same query
returns with mode "all", for every draw of the random index. -/
theorem C8_random_yields_member_of_all (f df : DataFrame) (area1 : AreaArg)
    (date s e : String) (area2 area3 : Option AreaArg) (rng : Nat)
    (dAll : DataFrame)
    (h : survivors f df area1 date s e area2 area3 = .ok dAll)
    (hne : dAll ≠ []) :
    select_chair_with f df area1 date s e area2 area3 "all" rng = .ok (.frame dAll)
    ∧ ∃ i r, select_chair_with f df area1 date s e area2 area3 "random" rng
          = .ok (.row i r) ∧ (i, r) ∈ dAll := by
  have hidx : dAll.map Prod.fst ≠ [] := by
    intro hcon
    cases dAll with
    | nil => exact hne rfl
    | cons x t => simp at hcon
  have hempty : (dAll.map Prod.fst).isEmpty = false := by
    cases hcase : dAll.map Prod.fst with
    | nil => exact absurd hcase hidx
    | cons x t => rfl
  have hlen : 0 < (dAll.map Prod.fst).length := by
    cases hcase : dAll.map Prod.fst with
    | nil => exact absurd hcase hidx
    | cons x t => simp
  have hklt : rng % (dAll.map Prod.fst).length < (dAll.map Prod.fst).length :=
    Nat.mod_lt _ hlen
  have hchosen : (dAll.map Prod.fst).getD (rng % (dAll.map Prod.fst).length) 0
      ∈ dAll.map Prod.fst := getD_mem _ _ _ hklt
  obtain ⟨r, hr⟩ : ∃ r, lookupRow dAll
      ((dAll.map Prod.fst).getD (rng % (dAll.map Prod.fst).length) 0) = some r := by
    cases hl : lookupRow dAll
        ((dAll.map Prod.fst).getD (rng % (dAll.map Prod.fst).length) 0) with
    | some r => exact ⟨r, rfl⟩
    | none => exact absurd hchosen ((lookupRow_eq_none_iff _ _).mp hl)
  constructor
  · unfold select_chair_with
    rw [h]
    rfl
  · refine ⟨(dAll.map Prod.fst).getD (rng % (dAll.map Prod.fst).length) 0, r, ?_,
      lookupRow_mem _ _ _ hr⟩
    rw [select_chair_with_random f df area1 date s e area2 area3 rng dAll h]
    rw [hempty, if_neg Bool.false_ne_true, hr]

/-- Witness for C8 on the spec-scenario roster with the query of C5 and
draw 5. -/
theorem C8_witness :
    select_chair_with rosterP rosterP (.one "stars") "2020-01-01" "08:00" "09:00"
        none none "all" 5 = .ok (.frame [(2, rowNaN), (3, rowNaN)])
    ∧ ∃ i r, select_chair_with rosterP rosterP (.one "stars") "2020-01-01" "08:00"
          "09:00" none none "random" 5 = .ok (.row i r)
        ∧ (i, r) ∈ ([(2, rowNaN), (3, rowNaN)] : DataFrame) :=
  C8_random_yields_member_of_all rosterP rosterP (.one "stars") "2020-01-01" "08:00"
    "09:00" none none 5 [(2, rowNaN), (3, rowNaN)] (by rfl) (by simp)

/-- C9: with mode "all", the result of `select_chair`'s body is a function
of the roster and the query alone — the random generator draw is never
consulted, so two runs on identical inputs give identical output. -/
theorem C9_all_mode_deterministic (f df : DataFrame) (area1 : AreaArg)
    (date s e : String) (area2 area3 : Option AreaArg) (rng1 rng2 : Nat) :
    select_chair_with f df area1 date s e area2 area3 "all" rng1
      = select_chair_with f df area1 date s e area2 area3 "all" rng2 := by
  unfold select_chair_with
  cases survivors f df area1 date s e area2 area3 <;> rfl

theorem enumFrom_map_read_get? (rows : List Row) :
    ∀ (n k : Nat),
      (((List.enumFrom n rows).map (fun p => (p.1 + 2, p.2)) : DataFrame).get? k)
        = (rows.get? k).map (fun r => (n + k + 2, r)) := by
  induction rows with
  | nil => intro n k; simp [List.enumFrom]
  | cons r t ih =>
    intro n k
    cases k with
    | zero => simp [List.enumFrom]
    | succ k =>
      have harith : n + 1 + k + 2 = n + (k + 1) + 2 := by omega
      simp only [List.enumFrom, List.map_cons, List.get?_cons_succ]
      rw [ih (n + 1) k, harith]

/-- C10: `read_data` keeps every parsed row, in order, with all field
values unchanged, and relabels row `k` with index `k + 2` (the constant
offset of `df.index += 2.0`); a failed parse is propagated unchanged. -/
theorem C10_read_data_contract (rows : List Row) (err : String) :
    (∃ d, read_data (.ok rows) = .ok d ∧ d.length = rows.length ∧
      ∀ k, d.get? k = (rows.get? k).map (fun r => (k + 2, r)))
    ∧ read_data (.error err) = .error err := by
  constructor
  · refine ⟨rows.enum.map (fun p => (p.1 + 2, p.2)), ?_, ?_, ?_⟩
    · rfl
    · rw [List.length_map]
      exact List.enum_length
    · intro k
      have := enumFrom_map_read_get? rows 0 k
      simpa [List.enum] using this
  · rfl
